import Mathlib

/-!
Shallow embedding of the zha_gateway bridge (Python sources under src/):
`device_command_handler.py`, `event_handler.py`, `coordinator.py`,
`mqtt_handler.py`, `cluster_handler.py`, `helpers.py`.

Mutable objects are modelled as immutable structures; Python dicts become
association lists in iteration order; network calls (`cluster.command`,
`async_update`, `permit`, `gateway.shutdown`, …) are modelled by oracles
giving each call's result; side effects (MQTT publishes, log lines, sleeps,
device-network operations) are collected into an explicit effect trace.
-/

namespace ZhaGW

/-- Result of an awaited device-network call: normal return, a raised
`TimeoutError`, or any other raised exception. -/
inductive NetResult
  | ok
  | timeout
  | error
  deriving DecidableEq, Repr

/-- A zigpy cluster together with its cluster handler, as seen by the
command handlers (`cluster_handler.cluster.cluster_id`). -/
structure ClusterHandler where
  cluster_id : Nat
  deriving DecidableEq, Repr

/-- A device endpoint: its id and `all_cluster_handlers.values()` in
iteration order, plus the raw inbound cluster ids used by `helpers.py`. -/
structure Endpoint where
  id : Nat
  clusters : List ClusterHandler
  in_clusters : List Nat
  deriving DecidableEq, Repr

/-- A ZHA device as used by the handlers: IEEE address (stringified), short
network address, availability flag, coordinator flag, and
`endpoints.values()` in iteration order. -/
structure Device where
  ieee : String
  nwk : Nat
  available : Bool
  is_coordinator : Bool
  endpoints : List Endpoint
  deriving DecidableEq, Repr

/-- The gateway's device registry `gateway.devices`: a dict from IEEE key to
device, modelled as an association list in iteration order. -/
structure Gateway where
  devices : List (String × Device)
  deriving DecidableEq, Repr

/-- JSON payloads published to the broker, restricted to the fields the
source actually writes (timestamps are omitted: they are wall-clock data). -/
inductive Payload
  | stateMsg (state : String) (ieee : String)
  | brightnessMsg (b : Nat) (ieee : String)
  | colorMsg (hue sat : Nat) (x y : Option ℚ) (ieee : String)
  | joinedMsg (ieee : String) (nwk : Nat) (endpoints : Option (List Nat))
      (capabilities : Option (List String))
  | deviceStatusMsg (ieee : String) (nwk : Nat) (status : String)
  | permitStatusMsg (status : String) (time : Nat)
  | zoneMsg (zone_status : Nat) (flags : List String) (ieee : String)
  | coordStatusMsg (status : String)
  deriving DecidableEq, Repr

/-- One observable side effect of a handler run. Device-network operations
record the position (endpoint index, cluster-handler index) of the cluster
they were issued against, the arguments, and the `request_timeout` in force. -/
inductive Effect
  | publish (topic : String) (payload : Payload) (retain : Bool)
  | logDebug
  | logWarning
  | logError
  | sleep (secs : Nat)
  | clusterCommand (epIdx chIdx cluster_id cmd timeout : Nat)
  | moveToLevel (epIdx chIdx level timeout : Nat)
  | moveToColor (epIdx chIdx : Nat) (rawX rawY : Int) (timeout : Nat)
  | moveToHueSat (epIdx chIdx hue sat timeout : Nat)
  | permitCall (time : Nat)
  | refreshRead (devIdx epIdx chIdx : Nat)
  | pollCheck
  | setupClusterBinding (ieee : String) (epId cluster_id : Nat)
  | gatewayShutdownCall
  | mqttDisconnect
  | mqttLoopStop
  deriving DecidableEq, Repr

/-- List of all publish effects in a trace (topic, payload, retain flag). -/
def publishes (tr : List Effect) : List (String × Payload × Bool) :=
  tr.filterMap fun e =>
    match e with
    | .publish t p r => some (t, p, r)
    | _ => none

/-- Number of `logger.warning` lines in a trace. -/
def countWarnings (tr : List Effect) : Nat :=
  tr.countP fun e =>
    match e with
    | .logWarning => true
    | _ => false

/-- The (endpoint index, cluster-handler index) a device-network operation in
the trace was issued against, if the effect is such an operation. -/
def deviceOpTarget : Effect → Option (Nat × Nat)
  | .clusterCommand i j _ _ _ => some (i, j)
  | .moveToLevel i j _ _ => some (i, j)
  | .moveToColor i j _ _ _ => some (i, j)
  | .moveToHueSat i j _ _ _ => some (i, j)
  | _ => none

/-- Number of device-network operations issued in a trace. -/
def countDeviceOps (tr : List Effect) : Nat :=
  tr.countP fun e => (deviceOpTarget e).isSome

/-- Retained-message store of the broker: topic → last retained payload.
Only publishes with `retain=True` replace the stored message. -/
def applyEffect (broker : String → Option Payload) : Effect → (String → Option Payload)
  | .publish t p true => fun t' => if t' = t then some p else broker t'
  | _ => broker

/-- Folding a whole effect trace over the broker's retained-message store. -/
def applyEffects (tr : List Effect) (broker : String → Option Payload) :
    String → Option Payload :=
  tr.foldl applyEffect broker

/-- `gateway.devices.get(ieee)` followed by the fallback scan
`for dev in devices.values(): if str(dev.ieee) == ieee`
(src/device_command_handler.py lines 25-31). -/
def lookupDevice (gw : Gateway) (ieee : String) : Option Device :=
  match (gw.devices.find? fun p => p.1 == ieee).map Prod.snd with
  | some d => some d
  | none => (gw.devices.map Prod.snd).find? fun d => d.ieee == ieee

/-- Scan of one endpoint's `all_cluster_handlers.values()` for the first
handler with the given cluster id, returning its index and the handler. -/
def findInClusters (chs : List ClusterHandler) (target : Nat) :
    Option (Nat × ClusterHandler) :=
  match chs with
  | [] => none
  | ch :: rest =>
    if ch.cluster_id = target then some (0, ch)
    else (findInClusters rest target).map fun p => (p.1 + 1, p.2)

/-- The nested endpoint/cluster scan shared by all four command handlers:
first endpoint with `id != 0` holding a handler whose cluster id matches,
returning (endpoint index, cluster index, handler). -/
def findCluster (eps : List Endpoint) (target : Nat) :
    Option (Nat × Nat × ClusterHandler) :=
  match eps with
  | [] => none
  | ep :: rest =>
    if ep.id ≠ 0 then
      match findInClusters ep.clusters target with
      | some (j, ch) => some (0, j, ch)
      | none => (findCluster rest target).map fun p => (p.1 + 1, p.2)
    else (findCluster rest target).map fun p => (p.1 + 1, p.2)

/-- Which code path a `handle_switch_command` run took (the Python function
returns `None`; this marker mirrors the executed branch and log outcome). -/
inductive SwitchOutcome
  | success
  | notFound
  | noCluster
  | timeoutRaised
  | errorRaised
  | timeoutExhausted
  | unexpectedError
  | loopExit
  deriving DecidableEq, Repr

/-- Topic of a retained switch state publish. -/
def switchStateTopic (ieee : String) : String :=
  "zigbee/device/" ++ ieee ++ "/switch/state"

/-- The `while attempt < max_attempts` retry loop of `handle_switch_command`
(src/device_command_handler.py lines 41-90), with `max_attempts = 3`.
`net k` is the result of the device-network call made on attempt `k`;
`fuel` is the number of remaining admissible attempts (`3 - attempt`).
Each attempt rescans the endpoints, sets `request_timeout = 30`, issues the
On/Off command (0x01/0x00), and on success publishes the retained state
message and returns; a `TimeoutError` with attempts left logs a warning and
sleeps 2 seconds; the final timeout and any other exception are re-raised. -/
def switchLoop (dev : Device) (ieee : String) (state : Bool)
    (net : Nat → NetResult) : Nat → Nat → List Effect × SwitchOutcome
  | _, 0 => ([], .loopExit)
  | attempt, fuel + 1 =>
    match findCluster dev.endpoints 0x0006 with
    | none => ([.logError], .noCluster)
    | some (i, j, ch) =>
      let cmdEff : Effect :=
        .clusterCommand i j ch.cluster_id (if state then 0x01 else 0x00) 30
      match net attempt with
      | .ok =>
        ([cmdEff,
          .publish (switchStateTopic ieee)
            (.stateMsg (if state then "on" else "off") ieee) true,
          .logDebug], .success)
      | .timeout =>
        if attempt + 1 < 3 then
          let rest := switchLoop dev ieee state net (attempt + 1) fuel
          (cmdEff :: .logWarning :: .sleep 2 :: rest.1, rest.2)
        else ([cmdEff], .timeoutRaised)
      | .error => ([cmdEff, .logError], .errorRaised)

/-- `handle_switch_command` (src/device_command_handler.py lines 16-93):
debug listing of the registry, device lookup with fallback, the retry loop,
and the enclosing `except Exception` that logs anything re-raised from it. -/
def handle_switch_command (gw : Gateway) (ieee : String) (state : Bool)
    (net : Nat → NetResult) : List Effect × SwitchOutcome :=
  let dbg : List Effect := Effect.logDebug :: gw.devices.map fun _ => .logDebug
  match lookupDevice gw ieee with
  | none => (dbg ++ [.logError], .notFound)
  | some dev =>
    let r := switchLoop dev ieee state net 0 3
    match r.2 with
    | .timeoutRaised => (dbg ++ r.1 ++ [.logError], .timeoutExhausted)
    | .errorRaised => (dbg ++ r.1 ++ [.logError], .unexpectedError)
    | o => (dbg ++ r.1, o)

/-- Topic of a retained light state publish. -/
def lightStateTopic (ieee : String) : String :=
  "zigbee/device/" ++ ieee ++ "/light/state"

/-- `handle_light_command` (src/device_command_handler.py lines 95-146):
single-attempt variant of the switch handler on the On/Off cluster; any
exception from the network call is caught by the enclosing handler and
logged. `net` is the result of the one device-network call. -/
def handle_light_command (gw : Gateway) (ieee : String) (state : Bool)
    (net : NetResult) : List Effect × SwitchOutcome :=
  match lookupDevice gw ieee with
  | none => ([.logError], .notFound)
  | some dev =>
    match findCluster dev.endpoints 0x0006 with
    | none => ([.logError], .noCluster)
    | some (i, j, ch) =>
      let cmdEff : Effect :=
        .clusterCommand i j ch.cluster_id (if state then 0x01 else 0x00) 30
      match net with
      | .ok =>
        ([cmdEff,
          .publish (lightStateTopic ieee)
            (.stateMsg (if state then "on" else "off") ieee) true,
          .logDebug], .success)
      | _ => ([cmdEff, .logError], .unexpectedError)

/-- `handle_brightness_command` (src/device_command_handler.py lines
148-197): single attempt on the Level Control cluster (0x0008), issuing
`move_to_level_with_on_off(brightness, 0)`. -/
def handle_brightness_command (gw : Gateway) (ieee : String) (brightness : Nat)
    (net : NetResult) : List Effect × SwitchOutcome :=
  match lookupDevice gw ieee with
  | none => ([.logError], .notFound)
  | some dev =>
    match findCluster dev.endpoints 0x0008 with
    | none => ([.logError], .noCluster)
    | some (i, j, _) =>
      let cmdEff : Effect := .moveToLevel i j brightness 30
      match net with
      | .ok =>
        ([cmdEff,
          .publish ("zigbee/device/" ++ ieee ++ "/light/brightness/state")
            (.brightnessMsg brightness ieee) true,
          .logDebug], .success)
      | _ => ([cmdEff, .logError], .unexpectedError)

/-- Python `int()` on a rational value: truncation toward zero. -/
def pyInt (q : ℚ) : Int :=
  if 0 ≤ q then ⌊q⌋ else ⌈q⌉

/-- The raw encoding of one fractional color axis used by
`handle_color_command` (src/device_command_handler.py line 225):
`int(value * 65535)` — truncation, with no clamping. -/
def encodeColorAxis (v : ℚ) : Int :=
  pyInt (v * 65535)

/-- The spec's words for the color-axis encoding, for comparison:
`round(value * 65535)` per axis, clamped to [0, 65535]. -/
def specEncodeColorAxis (v : ℚ) : Int :=
  min 65535 (max 0 (round (v * 65535)))

/-- Modelled from the spec: the repository publishes raw color attribute
values unchanged (src/event_handler.py `handle_color_attribute_updated`),
so the Attribute Codec's decode of a raw color axis back to a fractional
value is not under src/; per the spec's codec contract the fractional pair
is the raw value scaled by 1/65535. -/
def decodeColorAxis (raw : Int) : ℚ :=
  (raw : ℚ) / 65535

/-- `handle_color_command` (src/device_command_handler.py lines 199-262):
single attempt on the Color Control cluster (0x0300); an (x, y) fractional
pair is sent via `move_to_color(int(x*65535), int(y*65535), 0)`, otherwise
`move_to_hue_and_saturation(hue, saturation, 0)` is sent. -/
def handle_color_command (gw : Gateway) (ieee : String) (hue sat : Nat)
    (x y : Option ℚ) (net : NetResult) : List Effect × SwitchOutcome :=
  match lookupDevice gw ieee with
  | none => ([.logError], .notFound)
  | some dev =>
    match findCluster dev.endpoints 0x0300 with
    | none => ([.logError], .noCluster)
    | some (i, j, _) =>
      let cmdEff : Effect :=
        match x, y with
        | some xv, some yv =>
          .moveToColor i j (encodeColorAxis xv) (encodeColorAxis yv) 30
        | _, _ => .moveToHueSat i j hue sat 30
      match net with
      | .ok =>
        ([cmdEff,
          .publish ("zigbee/device/" ++ ieee ++ "/light/color/state")
            (.colorMsg hue sat x y ieee) true,
          .logDebug], .success)
      | _ => ([cmdEff, .logError], .unexpectedError)

/-- IAS Zone status decoding (src/event_handler.py lines 232-248): the
chain of `if zone_status & mask: flags.append(name)` checks, in order. -/
def decodeZoneStatus (zone_status : Nat) : List String :=
  (if zone_status &&& 0x0001 ≠ 0 then ["alarm1"] else []) ++
  (if zone_status &&& 0x0002 ≠ 0 then ["alarm2"] else []) ++
  (if zone_status &&& 0x0004 ≠ 0 then ["tamper"] else []) ++
  (if zone_status &&& 0x0008 ≠ 0 then ["battery"] else []) ++
  (if zone_status &&& 0x0010 ≠ 0 then ["supervision_reports"] else []) ++
  (if zone_status &&& 0x0020 ≠ 0 then ["restore_reports"] else []) ++
  (if zone_status &&& 0x0040 ≠ 0 then ["trouble"] else []) ++
  (if zone_status &&& 0x0080 ≠ 0 then ["ac_mains"] else [])

/-- `handle_ias_zone_attribute_updated` (src/event_handler.py lines
225-262) for an update whose attribute name is `zone_status`: decode the
bitmask and publish the retained zone state message. -/
def handle_ias_zone_attribute_updated (ieee : String) (zone_status : Nat) :
    List Effect :=
  [.publish ("zigbee/device/" ++ ieee ++ "/ias_zone/state")
    (.zoneMsg zone_status (decodeZoneStatus zone_status) ieee) true]

/-- Cluster ids with a branch in `_setup_endpoint_cluster_handlers`
(src/cluster_handler.py lines 56-67). -/
def supportedClusterIds : List Nat :=
  [0x0006, 0x0008, 0x0300, 0x0500, 0x0402, 0x0405]

/-- `_setup_endpoint_cluster_handlers` (src/cluster_handler.py lines
50-67): one binding effect per cluster handler with a supported cluster id. -/
def setup_endpoint_cluster_handlers (ieee : String) (ep : Endpoint) :
    List Effect :=
  ep.clusters.filterMap fun ch =>
    if ch.cluster_id ∈ supportedClusterIds then
      some (.setupClusterBinding ieee ep.id ch.cluster_id)
    else none

/-- `setup_cluster_handlers(gateway, device, endpoint)` for a single
device/endpoint (src/cluster_handler.py lines 28-33): unavailable devices
are skipped with a warning. -/
def setup_cluster_handlers_single (dev : Device) (ep : Endpoint) :
    List Effect :=
  if dev.available then setup_endpoint_cluster_handlers dev.ieee ep
  else [.logWarning]

/-- `get_endpoint_capabilities` (src/helpers.py lines 13-30): capability
tags derived from the endpoint's inbound cluster ids, in source order. -/
def endpointCapabilities (ep : Endpoint) : List String :=
  (if 0x0500 ∈ ep.in_clusters then ["ias_zone"] else []) ++
  (if 0x0006 ∈ ep.in_clusters then ["switch"] else []) ++
  (if 0x0201 ∈ ep.in_clusters then ["thermostat"] else []) ++
  (if 0x0101 ∈ ep.in_clusters then ["lock"] else []) ++
  (if 0x0300 ∈ ep.in_clusters then ["light"] else [])

/-- The `capabilities.update(ep_capabilities)` accumulation over endpoints
(src/event_handler.py lines 88-90): dict keys in first-insertion order. -/
def capsUnion (eps : List Endpoint) : List String :=
  eps.foldl
    (fun acc ep => acc ++ (endpointCapabilities ep).filter (fun c => c ∉ acc))
    []

/-- Plain `gateway.devices.get(key)` dict lookup (no fallback scan). -/
def lookupByKey (gw : Gateway) (key : String) : Option Device :=
  (gw.devices.find? fun p => p.1 == key).map Prod.snd

/-- The bounded endpoint-enumeration wait of `_handle_device_joined`
(src/event_handler.py lines 74-77): `for _ in range(3)`, breaking as soon
as `device.endpoints` is non-empty. The handler is a synchronous callback
(the `asyncio.sleep(1)` is created but never awaited), so the endpoint dict
cannot change between checks; the loop performs 1 check when endpoints are
already present and all 3 otherwise. -/
def joinPollChecks (dev : Device) : List Effect :=
  List.replicate (if dev.endpoints.isEmpty then 3 else 1) .pollCheck

/-- `_handle_device_joined` (src/event_handler.py lines 49-148): look the
device up in the registry (a missing device raises and is swallowed by the
outer handler with an error log and no publish), wait boundedly for
endpoint enumeration, summarize non-zero endpoints and capabilities
(omitting empty fields), set up cluster handlers for every non-zero
endpoint, then publish the non-retained `device_joined` event and the
retained per-device status message. -/
def handle_device_joined (gw : Gateway) (ieee : String) (nwk : Nat) :
    List Effect :=
  match lookupByKey gw ieee with
  | none => [.logError]
  | some dev =>
    let nonZero := dev.endpoints.filter fun ep => ep.id ≠ 0
    let epField : Option (List Nat) :=
      if nonZero.isEmpty then none else some (nonZero.map Endpoint.id)
    let caps := capsUnion nonZero
    let capsField : Option (List String) :=
      if caps.isEmpty then none else some caps
    let setupEffs := (nonZero.map fun ep => setup_cluster_handlers_single dev ep).flatten
    .logDebug :: joinPollChecks dev ++ setupEffs ++
      [.publish "zigbee/device/joined" (.joinedMsg ieee nwk epField capsField)
        false,
       .publish ("zigbee/device/" ++ ieee ++ "/status")
        (.deviceStatusMsg ieee nwk "joined") true,
       .logDebug]

/-- One cluster read of the Periodic Refresher (src/coordinator.py lines
187-196): `await cluster_handler.async_update()` wrapped in its own
try/except; a throwing read adds a debug log and the sweep continues. -/
def refreshCluster (read : Nat → Nat → Nat → Bool) (dIdx eIdx cIdx : Nat) :
    List Effect :=
  if read dIdx eIdx cIdx then [.refreshRead dIdx eIdx cIdx]
  else [.refreshRead dIdx eIdx cIdx, .logDebug]

/-- `_refresh_devices` (src/coordinator.py lines 172-199): one firing of
the Periodic Refresher. `read d e c` tells whether the read of cluster
index `c` on endpoint index `e` of device index `d` succeeds. -/
def refresh_devices : Option Gateway → (Nat → Nat → Nat → Bool) → List Effect
  | none, _ => []
  | some gw, read =>
    if gw.devices.isEmpty then []
    else
      ((gw.devices.map Prod.snd).enum.map fun d =>
        if d.2.is_coordinator then []
        else
          (d.2.endpoints.enum.map fun e =>
            if e.2.id = 0 then []
            else
              (e.2.clusters.enum.map fun c =>
                refreshCluster read d.1 e.1 c.1).flatten).flatten).flatten

/-- Number of refresh reads attempted in a trace. -/
def countReads (tr : List Effect) : Nat :=
  tr.countP fun e =>
    match e with
    | .refreshRead _ _ _ => true
    | _ => false

/-- Cluster bindings of one device: cluster handlers over its non-zero
endpoints. -/
def deviceBindings (dev : Device) : Nat :=
  ((dev.endpoints.filter fun ep => ep.id ≠ 0).map
    fun ep => ep.clusters.length).sum

/-- All cluster bindings the refresher's loops range over: non-zero
endpoints of every non-coordinator device. -/
def totalBindings (gw : Gateway) : Nat :=
  (((gw.devices.map Prod.snd).filter fun d => !d.is_coordinator).map
    deviceBindings).sum

/-- The bindings the spec's refresher clause ranges over: non-zero
endpoints of every available, non-coordinator device. -/
def availableBindings (gw : Gateway) : Nat :=
  (((gw.devices.map Prod.snd).filter
    fun d => !d.is_coordinator && d.available).map deviceBindings).sum

/-- Result of one shutdown step's underlying call: normal return or raise. -/
inductive StepResult
  | ok
  | raise
  deriving DecidableEq, Repr

/-- `MQTTHandler.publish_status("offline")` (src/mqtt_handler.py lines
41-86): the retained coordinator status publish, with its own internal
`except Exception` that logs and swallows any failure. -/
def publish_status_offline (r : StepResult) : List Effect :=
  match r with
  | .ok => [.publish "zigbee/coordinator/status" (.coordStatusMsg "offline")
      true, .logDebug]
  | .raise => [.logError]

/-- `MQTTHandler.stop` (src/mqtt_handler.py lines 177-185): disconnect and
stop the client loop, with its own internal `except Exception` that logs
and swallows any failure. -/
def mqtt_handler_stop (r : StepResult) : List Effect :=
  match r with
  | .ok => [.mqttDisconnect, .mqttLoopStop, .logDebug]
  | .raise => [.logError]

/-- `Coordinator.stop` (src/coordinator.py lines 85-96): offline status
publish, then `gateway.shutdown()` when a gateway exists, then the MQTT
stop, all inside a single try/except that logs any raised exception and
raises nothing further. `rShutdown` is the result of the (unguarded)
gateway shutdown call; the other two steps swallow their own failures. -/
def coordinator_stop (hasGw : Bool) (rPub rShutdown rStop : StepResult) :
    List Effect :=
  publish_status_offline rPub ++
    if hasGw then
      .gatewayShutdownCall ::
        match rShutdown with
        | .ok => mqtt_handler_stop rStop
        | .raise => [.logError]
    else mqtt_handler_stop rStop

/-- The permit-join window computed by `_on_mqtt_message`
(src/mqtt_handler.py line 105): `120 if permit_join else 0`, where the
payload field defaults to false when missing. -/
def permitWindow (permit_join : Option Bool) : Nat :=
  if permit_join.getD false then 120 else 0

/-- The `zigbee/permit_join` branch of `_on_mqtt_message`
(src/mqtt_handler.py lines 102-113): the window scheduled into
`handle_permit_join`, or `none` when no task is created (no gateway /
application controller, or no event loop). -/
def on_permit_join_message (hasGwController hasLoop : Bool)
    (permit_join : Option Bool) : Option Nat :=
  if hasGwController then
    if hasLoop then some (permitWindow permit_join) else none
  else none

/-- Which code path a `handle_permit_join` run took. -/
inductive PermitOutcome
  | success
  | gatewayMissing
  | timeoutRaised
  | errorRaised
  | timeoutExhausted
  | unexpectedError
  | loopExit
  deriving DecidableEq, Repr

/-- The `for attempt in range(3)` retry loop of `handle_permit_join`
(src/device_command_handler.py lines 271-296): `net k` is the result of
the `permit` call on attempt `k`; on success publish the retained
permit-join status and break; on `asyncio.TimeoutError` at the last
attempt re-raise, otherwise warn and sleep 1; any other exception
propagates immediately. -/
def permitLoop (t : Nat) (net : Nat → NetResult) :
    Nat → Nat → List Effect × PermitOutcome
  | _, 0 => ([], .loopExit)
  | attempt, fuel + 1 =>
    match net attempt with
    | .ok =>
      ([.permitCall t,
        .publish "zigbee/permit_join/status"
          (.permitStatusMsg (if t > 0 then "enabled" else "disabled") t) true,
        .logDebug], .success)
    | .timeout =>
      if attempt = 2 then ([.permitCall t], .timeoutRaised)
      else
        let rest := permitLoop t net (attempt + 1) fuel
        (.permitCall t :: .logWarning :: .sleep 1 :: rest.1, rest.2)
    | .error => ([.permitCall t], .errorRaised)

/-- `handle_permit_join` (src/device_command_handler.py lines 264-299):
gateway check, the retry loop, and the enclosing `except Exception` that
logs anything re-raised from it. -/
def handle_permit_join (hasGwController : Bool) (t : Nat)
    (net : Nat → NetResult) : List Effect × PermitOutcome :=
  if hasGwController then
    let r := permitLoop t net 0 3
    match r.2 with
    | .timeoutRaised => (r.1 ++ [.logError], .timeoutExhausted)
    | .errorRaised => (r.1 ++ [.logError], .unexpectedError)
    | o => (r.1, o)
  else ([.logError], .gatewayMissing)

/-- Fixture: an On/Off cluster handler. -/
def chOnOff : ClusterHandler := ⟨0x0006⟩

/-- Fixture: one non-zero endpoint exposing the On/Off cluster. -/
def epFix : Endpoint := ⟨1, [chOnOff], [0x0006]⟩

/-- Fixture: an available, non-coordinator device with the On/Off endpoint. -/
def devFix : Device := ⟨"aa", 2, true, false, [epFix]⟩

/-- Fixture: a registry holding only `devFix` under its IEEE key. -/
def gwFix : Gateway := ⟨[("aa", devFix)]⟩

/-- Fixture oracle: the first two network calls time out, the third
succeeds. -/
def netTTO : Nat → NetResult := fun n => if n < 2 then .timeout else .ok

/-- Fixture: the same device shape as `devFix` but marked unavailable. -/
def devUnavail : Device := ⟨"bb", 3, false, false, [epFix]⟩

/-- Fixture: a registry holding only the unavailable device. -/
def gwUnavail : Gateway := ⟨[("bb", devUnavail)]⟩

/-- The registry set to one uniform availability flag (the Device
Registry's `setAvailability` applied across devices). -/
def setAvailability (gw : Gateway) (b : Bool) : Gateway :=
  ⟨gw.devices.map fun p => (p.1, { p.2 with available := b })⟩

theorem effects_stats_logDebug {α : Type} (l : List α) :
    publishes (l.map fun _ => Effect.logDebug) = [] ∧
    countWarnings (l.map fun _ => Effect.logDebug) = 0 ∧
    countDeviceOps (l.map fun _ => Effect.logDebug) = 0 := by
  induction l with
  | nil => simp [publishes, countWarnings, countDeviceOps]
  | cons a t ih =>
    simp [publishes, countWarnings, countDeviceOps, deviceOpTarget, ih]

theorem applyEffects_of_publishes_nil (tr : List Effect)
    (h : publishes tr = []) (broker : String → Option Payload) :
    applyEffects tr broker = broker := by
  induction tr generalizing broker with
  | nil => rfl
  | cons e t ih =>
    cases e with
    | publish a b c => simp [publishes, List.filterMap_cons] at h
    | _ =>
      rw [applyEffects, List.foldl_cons]
      exact ih (by simpa [publishes, List.filterMap_cons] using h) _

/-- The claim's reading of zone decoding: the named flags whose fixed bit
positions are set (bit 0 through bit 7), higher bits ignored. -/
def zoneFlagsByBit (z : Nat) : List String :=
  (if z.testBit 0 then ["alarm1"] else []) ++
  (if z.testBit 1 then ["alarm2"] else []) ++
  (if z.testBit 2 then ["tamper"] else []) ++
  (if z.testBit 3 then ["battery"] else []) ++
  (if z.testBit 4 then ["supervision_reports"] else []) ++
  (if z.testBit 5 then ["restore_reports"] else []) ++
  (if z.testBit 6 then ["trouble"] else []) ++
  (if z.testBit 7 then ["ac_mains"] else [])

theorem and_pow_ne_zero (z m k : Nat) (hm : m = 2 ^ k) :
    (z &&& m ≠ 0) ↔ z.testBit k = true := by
  subst hm
  rw [Nat.and_two_pow]
  cases h : z.testBit k <;> simp [Nat.pos_iff_ne_zero, Nat.two_pow_pos]

theorem decodeZoneStatus_eq_byBit (z : Nat) :
    decodeZoneStatus z = zoneFlagsByBit z := by
  simp only [decodeZoneStatus, zoneFlagsByBit,
    and_pow_ne_zero z 0x0001 0 (by norm_num),
    and_pow_ne_zero z 0x0002 1 (by norm_num),
    and_pow_ne_zero z 0x0004 2 (by norm_num),
    and_pow_ne_zero z 0x0008 3 (by norm_num),
    and_pow_ne_zero z 0x0010 4 (by norm_num),
    and_pow_ne_zero z 0x0020 5 (by norm_num),
    and_pow_ne_zero z 0x0040 6 (by norm_num),
    and_pow_ne_zero z 0x0080 7 (by norm_num)]

/-- C4: for every raw 16-bit zone status value, decoding yields exactly the
named flags whose fixed bit positions are set (bit0=alarm1, bit1=alarm2,
bit2=tamper, bit3=battery, bit4=supervision, bit5=restore, bit6=trouble,
bit7=ac-mains), all unknown (higher) bits are ignored, and decoding raw
value 0x0005 yields exactly {alarm1, tamper}. -/
theorem C4_zone_status_decode (z : Nat) :
    decodeZoneStatus z = zoneFlagsByBit z ∧
    decodeZoneStatus (z % 2 ^ 8) = decodeZoneStatus z ∧
    decodeZoneStatus 0x0005 = ["alarm1", "tamper"] := by
  refine ⟨decodeZoneStatus_eq_byBit z, ?_, by decide⟩
  rw [decodeZoneStatus_eq_byBit, decodeZoneStatus_eq_byBit]
  simp only [zoneFlagsByBit, Nat.testBit_mod_two_pow]
  norm_num

/-- C3 counterexample: at x = 1/2 the code encodes `int(x * 65535) = 32767`
(truncation), whereas `round(x * 65535)` clamped to [0, 65535] is 32768. -/
theorem C3_counterexample :
    encodeColorAxis (1/2) = 32767 ∧ specEncodeColorAxis (1/2) = 32768 ∧
    encodeColorAxis (1/2) ≠ specEncodeColorAxis (1/2) := by
  refine ⟨?h1, ?h2, ?h3⟩ <;>
    norm_num [encodeColorAxis, specEncodeColorAxis, pyInt, round_eq]

/-- C3 (amended): for fractional values in [0, 1] the encoding is the
truncation `⌊value * 65535⌋` (Python `int()`, with no clamping applied —
none is needed on this range, where the result already lies in
[0, 65535]), and encode followed by decode round-trips within 1/65535
absolute error. -/
theorem C3_encode_floor_and_roundtrip (x : ℚ) (hx0 : 0 ≤ x) (hx1 : x ≤ 1) :
    encodeColorAxis x = ⌊x * 65535⌋ ∧
    0 ≤ encodeColorAxis x ∧ encodeColorAxis x ≤ 65535 ∧
    |x - decodeColorAxis (encodeColorAxis x)| ≤ 1 / 65535 := by
  have hq0 : (0:ℚ) ≤ x * 65535 := by positivity
  have henc : encodeColorAxis x = ⌊x * 65535⌋ := by
    simp [encodeColorAxis, pyInt, hq0]
  have h1 : ((⌊x * 65535⌋ : Int) : ℚ) ≤ x * 65535 := Int.floor_le _
  have h2 : x * 65535 < (⌊x * 65535⌋ : Int) + 1 := Int.lt_floor_add_one _
  refine ⟨henc, ?_, ?_, ?_⟩
  · rw [henc]
    exact Int.floor_nonneg.mpr hq0
  · rw [henc]
    have : x * 65535 ≤ 65535 := by linarith
    calc ⌊x * 65535⌋ ≤ ⌊(65535:ℚ)⌋ := Int.floor_le_floor this
    _ = 65535 := by norm_num
  · rw [henc, decodeColorAxis, abs_le]
    constructor <;> linarith

/-- C3 witness: the amended statement evaluated at x = 1/3. -/
theorem C3_witness :
    (0:ℚ) ≤ 1/3 ∧ (1/3 : ℚ) ≤ 1 ∧
    |(1/3 : ℚ) - decodeColorAxis (encodeColorAxis (1/3))| ≤ 1 / 65535 :=
  ⟨by norm_num, by norm_num,
    (C3_encode_floor_and_roundtrip (1/3) (by norm_num) (by norm_num)).2.2.2⟩

/-- C1: a switch set command to a known device with an On/Off cluster is
issued with `request_timeout = 30`; a timeout is retried up to 3 total
attempts with a fixed 2-second delay, a non-timeout error aborts with no
retry, and the two-timeouts-then-success run produces exactly one retained
state publish with state "on" and exactly two retry warnings. -/
theorem C1_switch_retry_policy (gw : Gateway) (ieee : String)
    (net : Nat → NetResult) (dev : Device)
    (hdev : lookupDevice gw ieee = some dev)
    (i j : Nat) (ch : ClusterHandler)
    (hfind : findCluster dev.endpoints 0x0006 = some (i, j, ch))
    (h0 : net 0 = .timeout) (h1 : net 1 = .timeout) (h2 : net 2 = .ok) :
    (handle_switch_command gw ieee true net).2 = .success ∧
    publishes (handle_switch_command gw ieee true net).1 =
      [(switchStateTopic ieee, .stateMsg "on" ieee, true)] ∧
    countWarnings (handle_switch_command gw ieee true net).1 = 2 ∧
    countDeviceOps (handle_switch_command gw ieee true net).1 = 3 ∧
    (∀ s : Nat, Effect.sleep s ∈ (handle_switch_command gw ieee true net).1 →
      s = 2) ∧
    (∀ a b c d tmo : Nat,
      Effect.clusterCommand a b c d tmo ∈ (handle_switch_command gw ieee true net).1 →
      tmo = 30) ∧
    (∀ net2 : Nat → NetResult, net2 0 = .error →
      (handle_switch_command gw ieee true net2).2 = .unexpectedError ∧
      countDeviceOps (handle_switch_command gw ieee true net2).1 = 1 ∧
      countWarnings (handle_switch_command gw ieee true net2).1 = 0) ∧
    (∀ net3 : Nat → NetResult, (∀ k, net3 k = .timeout) →
      (handle_switch_command gw ieee true net3).2 = .timeoutExhausted ∧
      countDeviceOps (handle_switch_command gw ieee true net3).1 = 3 ∧
      countWarnings (handle_switch_command gw ieee true net3).1 = 2) := by
  have hdbg := effects_stats_logDebug gw.devices
  refine ⟨?_, ?_, ?_, ?_, ?_, ?_, ?_, ?_⟩
  · simp [handle_switch_command, hdev, switchLoop, hfind, h0, h1, h2]
  · simp [handle_switch_command, hdev, switchLoop, hfind, h0, h1, h2,
      publishes, List.filterMap_append, hdbg.1]
  · simp [handle_switch_command, hdev, switchLoop, hfind, h0, h1, h2,
      countWarnings, List.countP_append, List.countP_cons]
  · simp [handle_switch_command, hdev, switchLoop, hfind, h0, h1, h2,
      countDeviceOps, List.countP_append, List.countP_cons, deviceOpTarget]
  · intro s hs
    simp [handle_switch_command, hdev, switchLoop, hfind, h0, h1, h2,
      List.mem_append, List.mem_map] at hs
    exact hs
  · intro a b c d tmo hto
    simp [handle_switch_command, hdev, switchLoop, hfind, h0, h1, h2,
      List.mem_append, List.mem_map] at hto
    tauto
  · intro net2 hn2
    have hdbg2 := effects_stats_logDebug gw.devices
    refine ⟨?_, ?_, ?_⟩
    · simp [handle_switch_command, hdev, switchLoop, hfind, hn2]
    · simp [handle_switch_command, hdev, switchLoop, hfind, hn2,
        countDeviceOps, List.countP_append, List.countP_cons, deviceOpTarget]
    · simp [handle_switch_command, hdev, switchLoop, hfind, hn2,
        countWarnings, List.countP_append, List.countP_cons]
  · intro net3 hn3
    refine ⟨?_, ?_, ?_⟩
    · simp [handle_switch_command, hdev, switchLoop, hfind, hn3]
    · simp [handle_switch_command, hdev, switchLoop, hfind, hn3,
        countDeviceOps, List.countP_append, List.countP_cons, deviceOpTarget]
    · simp [handle_switch_command, hdev, switchLoop, hfind, hn3,
        countWarnings, List.countP_append, List.countP_cons]

/-- C1 witness: the retry scenario evaluated on the concrete fixture. -/
theorem C1_witness :
    lookupDevice gwFix "aa" = some devFix ∧
    findCluster devFix.endpoints 0x0006 = some (0, 0, chOnOff) ∧
    netTTO 0 = .timeout ∧ netTTO 1 = .timeout ∧ netTTO 2 = .ok ∧
    (handle_switch_command gwFix "aa" true netTTO).2 = .success ∧
    publishes (handle_switch_command gwFix "aa" true netTTO).1 =
      [(switchStateTopic "aa", .stateMsg "on" "aa", true)] ∧
    countWarnings (handle_switch_command gwFix "aa" true netTTO).1 = 2 := by
  have h := C1_switch_retry_policy gwFix "aa" netTTO devFix (by decide)
    0 0 chOnOff (by decide) rfl rfl rfl
  exact ⟨by decide, by decide, rfl, rfl, rfl, h.1, h.2.1, h.2.2.1⟩

/-- C8: a switch command whose address matches no device yields the
not-found path: an error log, no outgoing publish, and an unchanged
retained-message store. -/
theorem C8_notfound_no_publish (gw : Gateway) (ieee : String) (st : Bool)
    (net : Nat → NetResult) (h : lookupDevice gw ieee = none) :
    (handle_switch_command gw ieee st net).2 = .notFound ∧
    publishes (handle_switch_command gw ieee st net).1 = [] ∧
    ∀ broker, applyEffects (handle_switch_command gw ieee st net).1 broker = broker := by
  have hpub : publishes (handle_switch_command gw ieee st net).1 = [] := by
    simp [handle_switch_command, h, publishes, List.filterMap_append]
  refine ⟨by simp [handle_switch_command, h], hpub, fun broker => ?_⟩
  exact applyEffects_of_publishes_nil _ hpub broker

/-- C8 witness: the not-found path evaluated on the concrete fixture at an
unknown address, including the unchanged empty broker store. -/
theorem C8_witness :
    lookupDevice gwFix "zz" = none ∧
    (handle_switch_command gwFix "zz" true netTTO).2 = .notFound ∧
    publishes (handle_switch_command gwFix "zz" true netTTO).1 = [] ∧
    applyEffects (handle_switch_command gwFix "zz" true netTTO).1
      (fun _ => none) = fun _ => none := by
  have h := C8_notfound_no_publish gwFix "zz" true netTTO (by decide)
  exact ⟨by decide, h.1, h.2.1, h.2.2 _⟩

/-- C2 counterexample: a registered but unavailable device is commanded
anyway — the operation is issued and the state published, instead of the
claimed distinct unavailable error before issuing the operation. -/
theorem C2_counterexample :
    devUnavail.available = false ∧
    (handle_switch_command gwUnavail "bb" true (fun _ => .ok)).2 = .success ∧
    Effect.clusterCommand 0 0 0x0006 0x01 30 ∈
      (handle_switch_command gwUnavail "bb" true (fun _ => .ok)).1 ∧
    publishes (handle_switch_command gwUnavail "bb" true (fun _ => .ok)).1 =
      [(switchStateTopic "bb", .stateMsg "on" "bb", true)] := by
  decide

theorem switchLoop_availability_blind (dev : Device) (b : Bool)
    (ieee : String) (st : Bool) (net : Nat → NetResult) :
    ∀ fuel attempt,
      switchLoop { dev with available := b } ieee st net attempt fuel =
        switchLoop dev ieee st net attempt fuel := by
  intro fuel
  induction fuel with
  | zero => intro attempt; rfl
  | succ f ih =>
    intro attempt
    simp only [switchLoop, ih]

theorem lookupDevice_setAvailability (gw : Gateway) (ieee : String) (b : Bool) :
    lookupDevice (setAvailability gw b) ieee =
      (lookupDevice gw ieee).map fun d => { d with available := b } := by
  obtain ⟨l⟩ := gw
  have hf1 : ((l.map fun p => (p.1, { p.2 with available := b })).find?
        fun p => p.1 == ieee)
      = (l.find? fun p => p.1 == ieee).map
          fun p => (p.1, { p.2 with available := b }) := by
    rw [List.find?_map]
    have hk : ((fun (p : String × Device) => p.1 == ieee) ∘
        fun (p : String × Device) => (p.1, { p.2 with available := b })) =
        fun (p : String × Device) => p.1 == ieee := funext fun p => rfl
    rw [hk]
  have hf2 : (((l.map fun p => (p.1, { p.2 with available := b })).map
        Prod.snd).find? fun d => d.ieee == ieee)
      = ((l.map Prod.snd).find? fun d => d.ieee == ieee).map
          fun d => { d with available := b } := by
    rw [List.map_map]
    have hsnd : (Prod.snd ∘ fun (p : String × Device) =>
        (p.1, { p.2 with available := b })) =
        (fun (d : Device) => { d with available := b }) ∘ Prod.snd :=
      funext fun p => rfl
    rw [hsnd, ← List.map_map, List.find?_map]
    have hk2 : ((fun (d : Device) => d.ieee == ieee) ∘
        fun (d : Device) => { d with available := b }) =
        fun (d : Device) => d.ieee == ieee := funext fun d => rfl
    rw [hk2]
  simp only [lookupDevice, setAvailability, hf1, hf2]
  cases hc : l.find? fun p => p.1 == ieee with
  | none => simp
  | some p => simp

/-- C2 (amended): command resolution never consults the availability flag —
a command behaves identically whatever the availability of the registered
devices (so a registered-but-unavailable device is commanded like an
available one, with no distinct unavailable outcome); only cluster-binding
setup skips unavailable devices, with a warning. -/
theorem C2_availability_not_checked (gw : Gateway) (ieee : String)
    (st : Bool) (net : Nat → NetResult) (b : Bool) (dev : Device)
    (ep : Endpoint) (hun : dev.available = false) :
    handle_switch_command (setAvailability gw b) ieee st net =
      handle_switch_command gw ieee st net ∧
    setup_cluster_handlers_single dev ep = [.logWarning] := by
  constructor
  · unfold handle_switch_command
    rw [lookupDevice_setAvailability]
    cases hc : lookupDevice gw ieee with
    | none => simp [setAvailability, List.map_map, Function.comp_def]
    | some d =>
      simp only [Option.map_some']
      rw [switchLoop_availability_blind]
      simp [setAvailability, List.map_map, Function.comp_def]
  · simp [setup_cluster_handlers_single, hun]

/-- C2 witness: the amended statement evaluated on the concrete fixtures. -/
theorem C2_witness :
    devUnavail.available = false ∧
    handle_switch_command (setAvailability gwFix false) "aa" true netTTO =
      handle_switch_command gwFix "aa" true netTTO ∧
    setup_cluster_handlers_single devUnavail epFix = [.logWarning] := by
  have h := C2_availability_not_checked gwFix "aa" true netTTO false
    devUnavail epFix rfl
  exact ⟨rfl, h.1, h.2⟩

theorem switchLoop_ops (dev : Device) (ieee : String) (st : Bool)
    (net : Nat → NetResult) :
    ∀ fuel attempt,
      (publishes (switchLoop dev ieee st net attempt fuel).1).length ≤ 1 ∧
      ∀ e ∈ (switchLoop dev ieee st net attempt fuel).1,
        ∀ pos, deviceOpTarget e = some pos →
          (findCluster dev.endpoints 0x0006).map (fun p => (p.1, p.2.1)) =
            some pos := by
  intro fuel
  induction fuel with
  | zero => intro attempt; simp [switchLoop, publishes]
  | succ f ih =>
    intro attempt
    cases hf : findCluster dev.endpoints 0x0006 with
    | none => simp [switchLoop, hf, publishes, deviceOpTarget]
    | some t =>
      obtain ⟨i, j, ch⟩ := t
      cases hn : net attempt with
      | ok => simp [switchLoop, hf, hn, publishes, deviceOpTarget]
      | error => simp [switchLoop, hf, hn, publishes, deviceOpTarget]
      | timeout =>
        by_cases hlt : attempt + 1 < 3
        · have hr := ih (attempt + 1)
          constructor
          · simp only [switchLoop, hf, hn, hlt, if_true, publishes,
              List.filterMap_cons]
            exact hr.1
          · intro e he pos hpos
            simp only [switchLoop, hf, hn, hlt, if_true, List.mem_cons] at he
            rcases he with h | h | h | h
            · subst h; simp [deviceOpTarget] at hpos; simp [hf, ← hpos]
            · subst h; simp [deviceOpTarget] at hpos
            · subst h; simp [deviceOpTarget] at hpos
            · have h5 := hr.2 e h pos hpos
              rw [hf] at h5
              exact h5
        · simp only [switchLoop, hf, hn, hlt, if_false]
          refine ⟨by simp [publishes], ?_⟩
          intro e he pos hpos
          simp only [List.mem_singleton] at he
          subst he
          simp [deviceOpTarget] at hpos
          simp [hf, ← hpos]

theorem mem_handle_switch (gw : Gateway) (ieee : String) (st : Bool)
    (net : Nat → NetResult) (dev : Device) (e : Effect)
    (hdev : lookupDevice gw ieee = some dev)
    (he : e ∈ (handle_switch_command gw ieee st net).1) :
    e = .logDebug ∨ e ∈ (switchLoop dev ieee st net 0 3).1 ∨
      e = .logError := by
  unfold handle_switch_command at he
  rw [hdev] at he
  revert he
  cases ho : (switchLoop dev ieee st net 0 3).2 <;>
    · intro he
      simp only [List.mem_append, List.mem_cons, List.mem_singleton,
        List.mem_map] at he
      aesop

/-- C9: each of the four device-command handlers issues its device
operation only against the first matching cluster in endpoint iteration
order (whatever the oracle results, including across retries), and
performs at most one state publish per invocation. -/
theorem C9_first_cluster_one_publish (gw : Gateway) (ieee : String)
    (st : Bool) (bri hue sat : Nat) (x y : Option ℚ) (net : Nat → NetResult)
    (n1 n2 n3 : NetResult) :
    ((publishes (handle_switch_command gw ieee st net).1).length ≤ 1 ∧
     ∀ dev, lookupDevice gw ieee = some dev →
       ∀ e ∈ (handle_switch_command gw ieee st net).1,
         ∀ pos, deviceOpTarget e = some pos →
           (findCluster dev.endpoints 0x0006).map (fun p => (p.1, p.2.1)) =
             some pos) ∧
    ((publishes (handle_light_command gw ieee st n1).1).length ≤ 1 ∧
     ∀ dev, lookupDevice gw ieee = some dev →
       ∀ e ∈ (handle_light_command gw ieee st n1).1,
         ∀ pos, deviceOpTarget e = some pos →
           (findCluster dev.endpoints 0x0006).map (fun p => (p.1, p.2.1)) =
             some pos) ∧
    ((publishes (handle_brightness_command gw ieee bri n2).1).length ≤ 1 ∧
     ∀ dev, lookupDevice gw ieee = some dev →
       ∀ e ∈ (handle_brightness_command gw ieee bri n2).1,
         ∀ pos, deviceOpTarget e = some pos →
           (findCluster dev.endpoints 0x0008).map (fun p => (p.1, p.2.1)) =
             some pos) ∧
    ((publishes (handle_color_command gw ieee hue sat x y n3).1).length ≤ 1 ∧
     ∀ dev, lookupDevice gw ieee = some dev →
       ∀ e ∈ (handle_color_command gw ieee hue sat x y n3).1,
         ∀ pos, deviceOpTarget e = some pos →
           (findCluster dev.endpoints 0x0300).map (fun p => (p.1, p.2.1)) =
             some pos) := by
  refine ⟨⟨?_, ?_⟩, ⟨?_, ?_⟩, ⟨?_, ?_⟩, ⟨?_, ?_⟩⟩
  · cases hc : lookupDevice gw ieee with
    | none =>
      simp [handle_switch_command, hc, publishes, List.filterMap_append,
        List.filterMap_map]
    | some dev =>
      have h := (switchLoop_ops dev ieee st net 3 0).1
      unfold handle_switch_command
      cases ho : (switchLoop dev ieee st net 0 3).2 <;>
        simp_all [hc, publishes, List.filterMap_append, List.filterMap_map]
  · intro dev hdev e he pos hpos
    rcases mem_handle_switch gw ieee st net dev e hdev he with h4 | h4 | h4
    · rw [h4] at hpos; simp [deviceOpTarget] at hpos
    · exact (switchLoop_ops dev ieee st net 3 0).2 e h4 pos hpos
    · rw [h4] at hpos; simp [deviceOpTarget] at hpos
  · cases hc : lookupDevice gw ieee with
    | none => simp [handle_light_command, hc, publishes]
    | some dev =>
      cases hf : findCluster dev.endpoints 0x0006 with
      | none => simp [handle_light_command, hc, hf, publishes]
      | some t =>
        obtain ⟨i, j, ch⟩ := t
        cases n1 <;> simp [handle_light_command, hc, hf, publishes]
  · intro dev hdev e he pos hpos
    cases hf : findCluster dev.endpoints 0x0006 with
    | none =>
      simp only [handle_light_command, hdev, hf, List.mem_singleton] at he
      rw [he] at hpos; simp [deviceOpTarget] at hpos
    | some t =>
      obtain ⟨i, j, ch⟩ := t
      cases n1 <;>
        · simp only [handle_light_command, hdev, hf, List.mem_cons,
            List.mem_singleton, List.not_mem_nil] at he
          rcases he with h4 | h4 <;> first
            | (subst h4; simp only [deviceOpTarget, Option.some_inj] at hpos;
               simp [hf, ← hpos])
            | (rcases h4 with h5 | h5 <;> first
                | (subst h5; simp [deviceOpTarget] at hpos)
                | simp_all [deviceOpTarget])
  · cases hc : lookupDevice gw ieee with
    | none => simp [handle_brightness_command, hc, publishes]
    | some dev =>
      cases hf : findCluster dev.endpoints 0x0008 with
      | none => simp [handle_brightness_command, hc, hf, publishes]
      | some t =>
        obtain ⟨i, j, ch⟩ := t
        cases n2 <;> simp [handle_brightness_command, hc, hf, publishes]
  · intro dev hdev e he pos hpos
    cases hf : findCluster dev.endpoints 0x0008 with
    | none =>
      simp only [handle_brightness_command, hdev, hf, List.mem_singleton] at he
      rw [he] at hpos; simp [deviceOpTarget] at hpos
    | some t =>
      obtain ⟨i, j, ch⟩ := t
      cases n2 <;>
        · simp only [handle_brightness_command, hdev, hf, List.mem_cons,
            List.mem_singleton, List.not_mem_nil] at he
          rcases he with h4 | h4 <;> first
            | (subst h4; simp only [deviceOpTarget, Option.some_inj] at hpos;
               simp [hf, ← hpos])
            | (rcases h4 with h5 | h5 <;> first
                | (subst h5; simp [deviceOpTarget] at hpos)
                | simp_all [deviceOpTarget])
  · cases hc : lookupDevice gw ieee with
    | none => simp [handle_color_command, hc, publishes]
    | some dev =>
      cases hf : findCluster dev.endpoints 0x0300 with
      | none => simp [handle_color_command, hc, hf, publishes]
      | some t =>
        obtain ⟨i, j, ch⟩ := t
        cases n3 <;> cases x <;> cases y <;>
          simp [handle_color_command, hc, hf, publishes]
  · intro dev hdev e he pos hpos
    cases hf : findCluster dev.endpoints 0x0300 with
    | none =>
      simp only [handle_color_command, hdev, hf, List.mem_singleton] at he
      rw [he] at hpos; simp [deviceOpTarget] at hpos
    | some t =>
      obtain ⟨i, j, ch⟩ := t
      cases n3 <;> cases x <;> cases y <;>
        · simp only [handle_color_command, hdev, hf, List.mem_cons,
            List.mem_singleton, List.not_mem_nil] at he
          rcases he with h4 | h4 <;> first
            | (subst h4; simp only [deviceOpTarget, Option.some_inj] at hpos;
               simp [hf, ← hpos])
            | (rcases h4 with h5 | h5 <;> first
                | (subst h5; simp [deviceOpTarget] at hpos)
                | simp_all [deviceOpTarget])

/-- C9 witness: the single-cluster/single-publish property evaluated on
the concrete switch fixture. -/
theorem C9_witness :
    (publishes (handle_switch_command gwFix "aa" true netTTO).1).length ≤ 1 ∧
    Effect.clusterCommand 0 0 0x0006 0x01 30 ∈
      (handle_switch_command gwFix "aa" true netTTO).1 ∧
    (findCluster devFix.endpoints 0x0006).map (fun p => (p.1, p.2.1)) =
      some (0, 0) := by
  have h := C9_first_cluster_one_publish gwFix "aa" true 10 1 2 none none
    netTTO .ok .ok .ok
  refine ⟨h.1.1, by decide, ?_⟩
  exact h.1.2 devFix (by decide) (Effect.clusterCommand 0 0 0x0006 0x01 30)
    (by decide) (0, 0) (by decide)

/-- Number of endpoint-enumeration poll checks in a trace. -/
def countPolls (tr : List Effect) : Nat :=
  tr.countP fun e =>
    match e with
    | .pollCheck => true
    | _ => false

theorem countPolls_setup (dev : Device) (ep : Endpoint) :
    countPolls (setup_cluster_handlers_single dev ep) = 0 := by
  rw [countPolls, List.countP_eq_zero]
  intro a ha
  unfold setup_cluster_handlers_single setup_endpoint_cluster_handlers at ha
  split at ha
  · obtain ⟨c, hc, hsome⟩ := List.mem_filterMap.mp ha
    split at hsome
    · cases Option.some.inj hsome
      simp
    · exact absurd hsome (by simp)
  · rw [List.mem_singleton] at ha
    subst ha
    simp

theorem countPolls_setup_flatten (dev : Device) (l : List Endpoint) :
    countPolls ((l.map fun ep => setup_cluster_handlers_single dev ep).flatten)
      = 0 := by
  induction l with
  | nil => rfl
  | cons ep t ih =>
    simp only [List.map_cons, List.flatten_cons]
    rw [countPolls, List.countP_append]
    have h1 := countPolls_setup dev ep
    rw [countPolls] at h1 ih
    omega

/-- C5: the join handler polls for endpoint enumeration at most 3 times
(and exactly 3 when endpoints are empty) and, when the joined device is in
the registry with no enumerated endpoints, still publishes the
`device_joined` event (with the endpoints field omitted) followed by the
retained per-device status message. -/
theorem C5_join_bounded_poll_then_publish (gw : Gateway) (ieee : String)
    (nwk : Nat) (dev : Device) (hdev : lookupByKey gw ieee = some dev)
    (hemp : dev.endpoints = []) :
    countPolls (handle_device_joined gw ieee nwk) = 3 ∧
    publishes (handle_device_joined gw ieee nwk) =
      [("zigbee/device/joined", .joinedMsg ieee nwk none none, false),
       ("zigbee/device/" ++ ieee ++ "/status",
         .deviceStatusMsg ieee nwk "joined", true)] ∧
    (∀ (gw2 : Gateway) (ieee2 : String) (nwk2 : Nat),
      countPolls (handle_device_joined gw2 ieee2 nwk2) ≤ 3) := by
  refine ⟨?_, ?_, ?_⟩
  · simp [handle_device_joined, hdev, hemp, joinPollChecks, capsUnion,
      countPolls, List.countP_append, List.countP_cons]
  · simp [handle_device_joined, hdev, hemp, joinPollChecks, capsUnion,
      publishes, List.filterMap_append]
  · intro gw2 ieee2 nwk2
    cases hdev2 : lookupByKey gw2 ieee2 with
    | none => simp [handle_device_joined, hdev2, countPolls]
    | some dev2 =>
      have hsetup := countPolls_setup_flatten dev2
        (dev2.endpoints.filter fun ep => ep.id ≠ 0)
      unfold handle_device_joined
      rw [hdev2]
      simp only [countPolls, List.countP_cons, List.countP_append,
        List.countP_nil, Bool.false_eq_true, if_false] at hsetup ⊢
      have hpoll : (joinPollChecks dev2).countP (fun e =>
          match e with
          | .pollCheck => true
          | _ => false) ≤ 3 := by
        unfold joinPollChecks
        split <;> simp [List.countP, List.countP.go]
      omega

/-- Fixture: a registered device with no enumerated endpoints. -/
def devNoEp : Device := ⟨"cc", 4, true, false, []⟩

/-- Fixture: a registry holding only the endpoint-less device. -/
def gwNoEp : Gateway := ⟨[("cc", devNoEp)]⟩

/-- C5 witness: the empty-endpoints join evaluated on the concrete
fixture. -/
theorem C5_witness :
    lookupByKey gwNoEp "cc" = some devNoEp ∧
    devNoEp.endpoints = [] ∧
    countPolls (handle_device_joined gwNoEp "cc" 4) = 3 ∧
    publishes (handle_device_joined gwNoEp "cc" 4) =
      [("zigbee/device/joined", .joinedMsg "cc" 4 none none, false),
       ("zigbee/device/cc/status", .deviceStatusMsg "cc" 4 "joined", true)] := by
  have h := C5_join_bounded_poll_then_publish gwNoEp "cc" 4 devNoEp
    (by decide) rfl
  exact ⟨by decide, rfl, h.1, h.2.1⟩

theorem countReads_refreshCluster (read : Nat → Nat → Nat → Bool)
    (d e c : Nat) : countReads (refreshCluster read d e c) = 1 := by
  unfold refreshCluster countReads
  split <;> rfl

theorem countReads_flatten_enumFrom {α : Type} (f : Nat × α → List Effect)
    (g : α → Nat) (hf : ∀ p, countReads (f p) = g p.2) :
    ∀ (l : List α) (n : Nat),
      countReads (((l.enumFrom n).map f).flatten) = (l.map g).sum := by
  intro l
  induction l with
  | nil => intro n; rfl
  | cons a t ih =>
    intro n
    simp only [List.enumFrom, List.map_cons, List.flatten_cons, List.sum_cons]
    rw [countReads, List.countP_append]
    have h1 : countReads (f (n, a)) = g a := hf (n, a)
    have h2 := ih (n + 1)
    rw [countReads] at h1 h2
    omega

theorem countReads_flatten_enum {α : Type} (f : Nat × α → List Effect)
    (g : α → Nat) (hf : ∀ p, countReads (f p) = g p.2) (l : List α) :
    countReads ((l.enum.map f).flatten) = (l.map g).sum :=
  countReads_flatten_enumFrom f g hf l 0

theorem deviceBindings_eq_sum (dev : Device) :
    (dev.endpoints.map fun ep =>
      if ep.id = 0 then 0 else ep.clusters.length).sum = deviceBindings dev := by
  unfold deviceBindings
  generalize dev.endpoints = l
  induction l with
  | nil => rfl
  | cons ep t ih =>
    by_cases h : ep.id = 0 <;> simp [h, ih]

theorem totalBindings_eq_sum (gw : Gateway) :
    ((gw.devices.map Prod.snd).map fun d =>
      if d.is_coordinator then 0 else deviceBindings d).sum = totalBindings gw := by
  unfold totalBindings
  generalize gw.devices.map Prod.snd = l
  induction l with
  | nil => rfl
  | cons d t ih =>
    by_cases h : d.is_coordinator <;> simp [h, ih]

theorem countReads_refresh_device (read : Nat → Nat → Nat → Bool)
    (dIdx : Nat) (dev : Device) :
    countReads ((dev.endpoints.enum.map fun e =>
      if e.2.id = 0 then []
      else (e.2.clusters.enum.map fun c =>
        refreshCluster read dIdx e.1 c.1).flatten).flatten)
      = deviceBindings dev := by
  rw [← deviceBindings_eq_sum]
  refine countReads_flatten_enum _ _ ?_ dev.endpoints
  intro p
  by_cases h : p.2.id = 0
  · simp [h, countReads]
  · simp only [h, if_false]
    have hin : ∀ q : Nat × ClusterHandler,
        countReads (refreshCluster read dIdx p.1 q.1) = 1 :=
      fun q => countReads_refreshCluster read dIdx p.1 q.1
    have hc := countReads_flatten_enum
      (fun c => refreshCluster read dIdx p.1 c.1) (fun _ => 1)
      (fun q => hin q) p.2.clusters
    rw [hc]
    simp

/-- C6 (amended): each Periodic Refresher firing issues exactly one
state-refresh read per cluster binding on every non-zero endpoint of every
non-coordinator device — availability is not consulted — and the count of
read attempts is independent of which individual reads throw (failures are
logged and do not abort the sweep). -/
theorem C6_refresher_sweeps_all (gw : Gateway)
    (read read2 : Nat → Nat → Nat → Bool) :
    countReads (refresh_devices (some gw) read) = totalBindings gw ∧
    countReads (refresh_devices (some gw) read) =
      countReads (refresh_devices (some gw) read2) ∧
    refresh_devices none read = [] := by
  have hmain : ∀ rd : Nat → Nat → Nat → Bool,
      countReads (refresh_devices (some gw) rd) = totalBindings gw := by
    intro rd
    rw [show refresh_devices (some gw) rd =
        (if gw.devices.isEmpty then []
         else ((gw.devices.map Prod.snd).enum.map fun d =>
           if d.2.is_coordinator then []
           else (d.2.endpoints.enum.map fun e =>
             if e.2.id = 0 then []
             else (e.2.clusters.enum.map fun c =>
               refreshCluster rd d.1 e.1 c.1).flatten).flatten).flatten)
      from rfl]
    by_cases hemp : gw.devices.isEmpty
    · rw [if_pos hemp]
      obtain ⟨l⟩ := gw
      cases l with
      | nil => rfl
      | cons a t => simp [List.isEmpty] at hemp
    · rw [if_neg hemp, ← totalBindings_eq_sum]
      refine countReads_flatten_enum _ _ ?_ (gw.devices.map Prod.snd)
      intro p
      by_cases h : p.2.is_coordinator
      · simp [h, countReads]
      · simp only [h, if_false]
        exact countReads_refresh_device rd p.1 p.2
  exact ⟨hmain read, (hmain read).trans (hmain read2).symm, rfl⟩

/-- C6 counterexample: a registered, unavailable, non-coordinator device
with one binding is still swept — the refresher issues its read, so the
number of read attempts (1) differs from the bindings of available devices
(0), contradicting the claim's restriction to available devices. -/
theorem C6_counterexample :
    devUnavail.available = false ∧ devUnavail.is_coordinator = false ∧
    countReads (refresh_devices (some gwUnavail) fun _ _ _ => false) = 1 ∧
    availableBindings gwUnavail = 0 := by decide

/-- C7 counterexample: when the gateway shutdown call raises, the MQTT
stop step is skipped — the single enclosing handler logs the error and
ends `stop`, so a failure in one step does prevent the remaining step. -/
theorem C7_counterexample :
    Effect.gatewayShutdownCall ∈ coordinator_stop true .ok .raise .ok ∧
    Effect.logError ∈ coordinator_stop true .ok .raise .ok ∧
    Effect.mqttDisconnect ∉ coordinator_stop true .ok .raise .ok := by decide

/-- C7 (amended): shutdown performs the offline publish, the gateway
shutdown (when a gateway exists) and the MQTT stop in order and never
raises; a failure inside the offline publish or the MQTT stop is swallowed
within that step with an error log and does not affect the other steps,
but a failure of the gateway shutdown call is logged and skips the MQTT
stop. -/
theorem C7_shutdown_steps (hasGw : Bool) (rPub rShutdown rStop : StepResult) :
    (hasGw = true →
      Effect.gatewayShutdownCall ∈ coordinator_stop hasGw rPub rShutdown rStop) ∧
    (rShutdown = .ok ∨ hasGw = false →
      coordinator_stop hasGw rPub rShutdown rStop =
        publish_status_offline rPub ++
          (if hasGw then [Effect.gatewayShutdownCall] else []) ++
          mqtt_handler_stop rStop) ∧
    (hasGw = true → rShutdown = .raise →
      coordinator_stop hasGw rPub rShutdown rStop =
        publish_status_offline rPub ++
          [Effect.gatewayShutdownCall, Effect.logError]) ∧
    publish_status_offline .raise = [Effect.logError] ∧
    mqtt_handler_stop .raise = [Effect.logError] := by
  cases hasGw <;> cases rShutdown <;>
    simp [coordinator_stop, publish_status_offline, mqtt_handler_stop]

/-- C7 witness: the amended statement evaluated at a shutdown whose
offline publish and MQTT stop both fail internally. -/
theorem C7_witness :
    Effect.gatewayShutdownCall ∈ coordinator_stop true .raise .ok .raise ∧
    coordinator_stop true .raise .ok .raise =
      publish_status_offline .raise ++ [Effect.gatewayShutdownCall] ++
        mqtt_handler_stop .raise ∧
    publish_status_offline .raise = [Effect.logError] := by
  have h := C7_shutdown_steps true .raise .ok .raise
  refine ⟨h.1 rfl, ?_, h.2.2.2.1⟩
  simpa using h.2.1 (Or.inl rfl)

/-- C10: the permit-join bus interface schedules only the fixed windows
120 (payload `permit_join` true) and 0 (false or missing field), and a
successful permit call publishes one retained status message on
`zigbee/permit_join/status` with status "enabled" exactly when the window
is positive. -/
theorem C10_permit_join_fixed_window (hasGwC hasLoop : Bool)
    (pj : Option Bool) (t : Nat) (net : Nat → NetResult) (w : Nat) :
    (on_permit_join_message hasGwC hasLoop pj = some w →
      w = 120 ∨ w = 0) ∧
    (on_permit_join_message hasGwC hasLoop pj = some w →
      (w = 120 ↔ pj = some true)) ∧
    permitWindow (some true) = 120 ∧
    permitWindow (some false) = 0 ∧ permitWindow none = 0 ∧
    (∀ k, k < 3 → (∀ m, m < k → net m = .timeout) → net k = .ok →
      publishes (handle_permit_join true t net).1 =
        [("zigbee/permit_join/status",
          .permitStatusMsg (if t > 0 then "enabled" else "disabled") t,
          true)] ∧
      (handle_permit_join true t net).2 = .success) := by
  refine ⟨?_, ?_, rfl, rfl, rfl, ?_⟩
  · intro h
    rcases pj with _ | b
    · cases hasGwC <;> cases hasLoop <;>
        simp_all [on_permit_join_message, permitWindow]
    · cases b <;> cases hasGwC <;> cases hasLoop <;>
        simp_all [on_permit_join_message, permitWindow]
  · intro h
    rcases pj with _ | b
    · cases hasGwC <;> cases hasLoop <;>
        (simp_all [on_permit_join_message, permitWindow]; try omega)
    · cases b <;> cases hasGwC <;> cases hasLoop <;>
        (simp_all [on_permit_join_message, permitWindow]; try omega)
  · intro k hk hpre hok
    interval_cases k
    · constructor <;>
        simp [handle_permit_join, permitLoop, hok, publishes]
    · have h0 : net 0 = .timeout := hpre 0 (by norm_num)
      constructor <;>
        simp [handle_permit_join, permitLoop, h0, hok, publishes]
    · have h0 : net 0 = .timeout := hpre 0 (by norm_num)
      have h1 : net 1 = .timeout := hpre 1 (by norm_num)
      constructor <;>
        simp [handle_permit_join, permitLoop, h0, h1, hok, publishes]

/-- C10 witness: the permit-join path evaluated at a true payload with an
immediately successful permit call. -/
theorem C10_witness :
    on_permit_join_message true true (some true) = some 120 ∧
    (some 120 = some 120 → (120 = 120 ∨ 120 = 0)) ∧
    publishes (handle_permit_join true 120 fun _ => .ok).1 =
      [("zigbee/permit_join/status", .permitStatusMsg "enabled" 120, true)] ∧
    (handle_permit_join true 120 fun _ => .ok).2 = .success := by
  have h := C10_permit_join_fixed_window true true (some true) 120
    (fun _ => .ok) 120
  have h2 := h.2.2.2.2.2 0 (by decide) (fun m hm => absurd hm (by omega)) rfl
  exact ⟨by decide, fun _ => h.1 (by decide), by simpa using h2.1, h2.2⟩

end ZhaGW
